import Mathlib

/-!
Verification of the todo HTTP service in `src/hello-world-api/src/main.rs`.

The service is shallowly embedded: the `todo` table is a list of rows in
insertion order, each SQL statement becomes a pure function on that list,
identifiers (`uuid::Uuid` in the source) are opaque tokens modelled as `Nat`,
and each axum handler becomes a function from the store (and its decoded
inputs) to an HTTP response, returning the new store where the handler
mutates it.  Store failures (`sqlx::Error`) and their translation to
`ApiError` follow the two `From` impls in the source; the `error!` log line
emitted by the catch-all arm is made explicit as an optional log string.
-/

namespace HelloWorldApi

/-- Internal row of the `todo` table (struct `Todo` in main.rs, lines
119-124).  The `uuid::Uuid` identifier is an opaque token, modelled as
`Nat`. -/
structure Todo where
  id : Nat
  todo_text : String
  is_done : Bool
deriving DecidableEq, Repr

/-- External view of a todo (struct `ToDoView`, lines 131-136): the internal
`todo_text` field is exposed as `text`. -/
structure ToDoView where
  id : Nat
  text : String
  is_done : Bool
deriving DecidableEq, Repr

/-- Conversion `impl From<Todo> for ToDoView` (lines 148-156). -/
def ToDoView.ofTodo (todo : Todo) : ToDoView :=
  { id := todo.id, text := todo.todo_text, is_done := todo.is_done }

/-- Decoded request body of `POST /todos` (struct `CreateTodo`, lines
126-129). -/
structure CreateTodo where
  text : String
deriving DecidableEq, Repr

/-- Decoded request body of `PUT /todos/:id` (struct `PutTodo`, lines
205-208). -/
structure PutTodo where
  is_done : Bool
deriving DecidableEq, Repr

/-- A database-level error as surfaced by the driver behind
`Box<dyn DatabaseError>`: its SQLSTATE code (`value.code()`), the violated
constraint if any (`value.constraint()`, unused by the source), and its
`Debug` rendering (what `format!` with the debug specifier prints). -/
structure DatabaseError where
  code : Option String
  constraint : Option String
  debugRepr : String
deriving DecidableEq, Repr

/-- The `sqlx::Error` values a store call can produce: a database-reported
error, `RowNotFound` from `fetch_one` on an empty result, or any other
driver error (connectivity, pool timeout, decode, ...) carrying its `Debug`
rendering. -/
inductive SqlxError where
  | database (e : DatabaseError)
  | rowNotFound
  | other (debugRepr : String)
deriving DecidableEq, Repr

/-- struct `ApiError` (lines 158-161): an HTTP status code plus a message
string. -/
structure ApiError where
  code : Nat
  error : String
deriving DecidableEq, Repr

/-- `impl From<Box<dyn DatabaseError>> for ApiError` (lines 163-178): code
23505 (unique violation) becomes 409 Conflict with the fixed message
"Duplicate entity"; every other database error becomes 500 with the debug
rendering of the boxed error as the message. -/
def ApiError.ofDatabaseError (value : DatabaseError) : ApiError :=
  match value.code with
  | some code =>
    if code = "23505" then { code := 409, error := "Duplicate entity" }
    else { code := 500, error := value.debugRepr }
  | none => { code := 500, error := value.debugRepr }

/-- `impl From<sqlx::Error> for ApiError` (lines 180-197), paired with the
log line the conversion emits (the `error!` call in the catch-all arm);
`none` when no log line is emitted. -/
def ApiError.ofSqlxError : SqlxError → ApiError × Option String
  | .database dbErr => (ApiError.ofDatabaseError dbErr, none)
  | .rowNotFound => ({ code := 404, error := "Not found" }, none)
  | .other debugRepr =>
    ({ code := 500, error := "Fail to insert into database" },
      some ("Fail to insert into database " ++ debugRepr))

/-- Minimal JSON value model for serialized response bodies. -/
inductive Json where
  | str (s : String)
  | bool (b : Bool)
  | num (n : Nat)
  | arr (elems : List Json)
  | obj (fields : List (String × Json))

/-- serde `Serialize` for `ToDoView`: an object with fields `id`, `text`,
`is_done`. -/
def ToDoView.toJson (v : ToDoView) : Json :=
  .obj [("id", .num v.id), ("text", .str v.text), ("is_done", .bool v.is_done)]

/-- An HTTP response body.  axum serializes `Json(x)` as a JSON body and a
bare `String` as a plain-text body. -/
inductive Body where
  | text (s : String)
  | json (j : Json)

/-- An HTTP response: status code plus body. -/
structure Response where
  status : Nat
  body : Body

/-- `impl IntoResponse for ApiError` (lines 199-203): the pair
`(self.code, self.error)` responds with that status and the bare message
string, which axum renders as a plain-text body. -/
def ApiError.intoResponse (e : ApiError) : Response :=
  { status := e.code, body := .text e.error }

/-- The `todo` table: rows in insertion order. -/
abbrev Store := List Todo

/-- sqlx `fetch_one`: `RowNotFound` when the statement produced no row,
otherwise the first row. -/
def fetchOne (row? : Option Todo) : Except SqlxError Todo :=
  match row? with
  | some t => .ok t
  | none => .error .rowNotFound

/-- SQL `select id, todo_text, is_done from "todo" where id = $1`: the
first row whose id matches. -/
def selectTodoById (s : Store) (id : Nat) : Option Todo :=
  s.find? (fun t => t.id == id)

/-- SQL `select id, todo_text, is_done from "todo" order by id limit $1`:
the rows in ascending id order, capped at `n`. -/
def selectTodosOrderByIdLimit (s : Store) (n : Nat) : List Todo :=
  (s.mergeSort (fun a b => a.id ≤ b.id)).take n

/-- Modelled from the spec: the migration schema (the `migrations/`
directory of this repository is not under `src/`) declares
`todo(id uuid primary key default, todo_text text, is_done boolean default
false)`, so the statement `insert into "todo" (todo_text) values ($1)
returning id, todo_text, is_done` stores a server-generated identifier and
the default `is_done = false`, and a colliding identifier would violate the
primary key (SQLSTATE 23505).  The generated identifier is passed in
explicitly as `freshId`. -/
def insertTodo (s : Store) (freshId : Nat) (text : String) :
    Store × Except SqlxError Todo :=
  if s.any (fun t => t.id == freshId) then
    (s, .error (.database
      { code := some "23505", constraint := some "todo_pkey",
        debugRepr := "duplicate key value violates unique constraint todo_pkey" }))
  else
    (s ++ [{ id := freshId, todo_text := text, is_done := false }],
      .ok { id := freshId, todo_text := text, is_done := false })

/-- The row transformer of the update statement: rows whose id matches get
their done flag replaced, all other rows are untouched. -/
def setDone (id : Nat) (done : Bool) (t : Todo) : Todo :=
  if t.id == id then { t with is_done := done } else t

/-- SQL `update "todo" set is_done = $1 where id = $2 returning id,
todo_text, is_done`: the updated table, and the first returned (updated)
row, which is what `fetch_one` consumes. -/
def updateTodoDone (s : Store) (id : Nat) (done : Bool) : Store × Option Todo :=
  (s.map (setDone id done),
    (s.map (setDone id done)).find? (fun t => t.id == id))

/-- The rows handler `get_todos` serializes: ascending by id, at most 10. -/
def get_todos_rows (s : Store) : List Todo :=
  selectTodosOrderByIdLimit s 10

/-- Handler `get_todos` (lines 55-70): 200 with the JSON array of views. -/
def get_todos (s : Store) : Response :=
  { status := 200,
    body := .json (.arr ((get_todos_rows s).map (fun t => (ToDoView.ofTodo t).toJson))) }

/-- Handler `get_todo` (lines 72-82): 200 with the view of the matching row,
otherwise the translated store error. -/
def get_todo (s : Store) (id : Nat) : Response :=
  match fetchOne (selectTodoById s id) with
  | .ok todo => { status := 200, body := .json (ToDoView.ofTodo todo).toJson }
  | .error err => ((ApiError.ofSqlxError err).1).intoResponse

/-- Handler `put_todo_done` (lines 84-101): runs the update statement and
returns the store after it together with the response. -/
def put_todo_done (s : Store) (id : Nat) (body : PutTodo) : Store × Response :=
  ((updateTodoDone s id body.is_done).1,
    match fetchOne (updateTodoDone s id body.is_done).2 with
    | .ok todo => { status := 200, body := .json (ToDoView.ofTodo todo).toJson }
    | .error err => ((ApiError.ofSqlxError err).1).intoResponse)

/-- Handler `create_todo` (lines 103-117): runs the insert statement and
returns the store after it together with the response (201 on success). -/
def create_todo (s : Store) (freshId : Nat) (body : CreateTodo) :
    Store × Response :=
  ((insertTodo s freshId body.text).1,
    match (insertTodo s freshId body.text).2 with
    | .ok todo => { status := 201, body := .json (ToDoView.ofTodo todo).toJson }
    | .error err => ((ApiError.ofSqlxError err).1).intoResponse)

/-- HTTP methods used by the route table. -/
inductive Method where
  | get
  | post
  | put
deriving DecidableEq, Repr

/-- One binding of the route table: method, path pattern, handler name. -/
structure Route where
  method : Method
  path : String
  handler : String
deriving DecidableEq, Repr

/-- The fixed route table built by `Router::new()` in `main` (lines 40-45). -/
def appRoutes : List Route :=
  [ { method := .get, path := "/todos", handler := "get_todos" },
    { method := .post, path := "/todos", handler := "create_todo" },
    { method := .get, path := "/todos/:id", handler := "get_todo" },
    { method := .put, path := "/todos/:id", handler := "put_todo_done" } ]

/-- Bool test: `needle` occurs as a contiguous run inside `hay` (character
lists). -/
def containsSeq (needle : List Char) : List Char → Bool
  | [] => needle.isEmpty
  | c :: rest => needle.isPrefixOf (c :: rest) || containsSeq needle rest

/-- String containment, via `containsSeq` on the character lists. -/
def strContains (hay needle : String) : Bool :=
  containsSeq needle.data hay.data

/-- Follows the spec's words: an error body of the shape
`error: string` rendered as a JSON object with the single field `error`. -/
def bodyIsJsonErrorObject : Body → Bool
  | .json (.obj [("error", .str _)]) => true
  | _ => false

/-- Follows the spec's words for the message policy of store failures other
than unique violations and missing rows: the caller never sees the raw
error detail (the message differs from the debug rendering) and the detail
is logged server-side. -/
def OtherStoreErrorsNeverEchoDetail : Prop :=
  ∀ e : DatabaseError, e.code ≠ some "23505" →
    (ApiError.ofSqlxError (.database e)).1.error ≠ e.debugRepr ∧
    (ApiError.ofSqlxError (.database e)).2 ≠ none

theorem setDone_id (id : Nat) (done : Bool) (t : Todo) :
    (setDone id done t).id = t.id := by
  unfold setDone; split <;> rfl

theorem setDone_text (id : Nat) (done : Bool) (t : Todo) :
    (setDone id done t).todo_text = t.todo_text := by
  unfold setDone; split <;> rfl

theorem setDone_of_ne (id : Nat) (done : Bool) (t : Todo) (h : ¬ t.id = id) :
    setDone id done t = t := by
  unfold setDone; simp [h]

theorem setDone_of_eq (id : Nat) (done : Bool) (t : Todo) (h : t.id = id) :
    setDone id done t = { t with is_done := done } := by
  unfold setDone; simp [h]

theorem find_setDone_of_mem (s : Store) (id : Nat) (done : Bool)
    (h : ∃ t ∈ s, t.id = id) :
    ∃ u : Todo, (s.map (setDone id done)).find? (fun t => t.id == id) = some u ∧
      u.id = id ∧ u.is_done = done := by
  induction s with
  | nil => simp at h
  | cons a tl ih =>
    by_cases ha : a.id = id
    · refine ⟨{ a with is_done := done }, ?_, ha, rfl⟩
      rw [List.map_cons, setDone_of_eq id done a ha]
      exact List.find?_cons_of_pos _ (by simp [ha])
    · have h' : ∃ t ∈ tl, t.id = id := by
        obtain ⟨t, ht, hid⟩ := h
        rcases List.mem_cons.mp ht with rfl | htl
        · exact absurd hid ha
        · exact ⟨t, htl, hid⟩
      obtain ⟨u, hu, hid', hdone⟩ := ih h'
      refine ⟨u, ?_, hid', hdone⟩
      rw [List.map_cons, List.find?_cons_of_neg _ (by simp [setDone_id, ha]), hu]

theorem map_setDone_of_not_mem (s : Store) (id : Nat) (done : Bool)
    (h : ∀ t ∈ s, t.id ≠ id) :
    s.map (setDone id done) = s := by
  induction s with
  | nil => rfl
  | cons a tl ih =>
    rw [List.map_cons, setDone_of_ne id done a (h a (by simp)),
      ih (fun t ht => h t (List.mem_cons_of_mem a ht))]

theorem find_of_not_mem (s : Store) (id : Nat)
    (h : ∀ t ∈ s, t.id ≠ id) :
    s.find? (fun t => t.id == id) = none := by
  rw [List.find?_eq_none]
  intro t ht
  simp [h t ht]

/-- C3: for every store state, `GET /todos` returns at most 10 entries,
the returned entries are sorted ascending by identifier, and the response
is the 200 JSON array of their views. -/
theorem get_todos_limit_sorted (s : Store) :
    (get_todos_rows s).length ≤ 10 ∧
    (get_todos_rows s).Pairwise (fun a b => a.id ≤ b.id) ∧
    get_todos s =
      { status := 200,
        body := .json (.arr ((get_todos_rows s).map (fun t => (ToDoView.ofTodo t).toJson))) } := by
  refine ⟨?_, ?_, rfl⟩
  · simp [get_todos_rows, selectTodosOrderByIdLimit, List.length_take]
  · have hsorted : (s.mergeSort (fun a b => a.id ≤ b.id)).Pairwise
        (fun a b => decide (a.id ≤ b.id) = true) :=
      List.sorted_mergeSort
        (fun a b c hab hbc => by
          simp only [decide_eq_true_eq] at *
          omega)
        (fun a b => by
          simp only [Bool.or_eq_true, decide_eq_true_eq]
          omega)
        s
    have htake : (get_todos_rows s).Sublist (s.mergeSort (fun a b => a.id ≤ b.id)) :=
      List.take_sublist _ _
    exact (List.Pairwise.sublist htake hsorted).imp (fun hab => by
      simpa using hab)

/-- C4: for every identifier matching no stored todo, `GET /todos/:id`
responds exactly with status 404 and the fixed plain-text message
"Not found". -/
theorem get_todo_absent (s : Store) (id : Nat) (h : ∀ t ∈ s, t.id ≠ id) :
    get_todo s id = { status := 404, body := .text "Not found" } := by
  rw [get_todo, selectTodoById, find_of_not_mem s id h]
  rfl

/-- Witness for C4 at a concrete store and identifier. -/
theorem get_todo_absent_witness :
    get_todo [{ id := 1, todo_text := "a", is_done := false }] 2 =
      { status := 404, body := .text "Not found" } :=
  get_todo_absent [{ id := 1, todo_text := "a", is_done := false }] 2
    (by intro t ht; simp at ht; simp [ht])

/-- C10: the translation from store failures to API errors is total with
statuses limited to 409 Conflict, 404 Not Found, and 500 Internal Server
Error; the response built from it carries that status. -/
theorem error_translation_total (e : SqlxError) :
    ((ApiError.ofSqlxError e).1.code = 409 ∨ (ApiError.ofSqlxError e).1.code = 404 ∨
      (ApiError.ofSqlxError e).1.code = 500) ∧
    ((ApiError.ofSqlxError e).1.intoResponse).status = (ApiError.ofSqlxError e).1.code := by
  refine ⟨?_, rfl⟩
  cases e with
  | database d =>
    rcases hc : d.code with _ | c
    · simp [ApiError.ofSqlxError, ApiError.ofDatabaseError, hc]
    · by_cases h23 : c = "23505" <;>
        simp [ApiError.ofSqlxError, ApiError.ofDatabaseError, hc, h23]
  | rowNotFound => simp [ApiError.ofSqlxError]
  | other d => simp [ApiError.ofSqlxError]

/-- C5 counterexample: the claim that store failures other than unique
violations and missing rows respond with only a generic message, with the
full detail logged and never echoed, is false: a database error whose
SQLSTATE is not 23505 is echoed verbatim (its debug rendering is the
response message) and nothing is logged. -/
theorem dbError_detail_echoed : ¬ OtherStoreErrorsNeverEchoDetail := by
  intro hclaim
  have h := hclaim
    { code := some "57014", constraint := none,
      debugRepr := "canceling statement due to user request" }
    (by decide)
  exact h.1 rfl

/-- C5 amended: store failures that are not database-reported errors and
not missing rows get status 500 with the fixed generic message and the full
detail logged; but database-reported errors whose SQLSTATE is not 23505 get
status 500 with the error's debug rendering echoed as the response message
and no log line. -/
theorem other_store_errors_translation (d : String) (e : DatabaseError)
    (hcode : e.code ≠ some "23505") :
    ApiError.ofSqlxError (.other d) =
      ({ code := 500, error := "Fail to insert into database" },
        some ("Fail to insert into database " ++ d)) ∧
    ApiError.ofSqlxError (.database e) = ({ code := 500, error := e.debugRepr }, none) := by
  refine ⟨rfl, ?_⟩
  rcases hc : e.code with _ | c
  · simp [ApiError.ofSqlxError, ApiError.ofDatabaseError, hc]
  · have hne : ¬ c = "23505" := by
      intro h
      exact hcode (by rw [hc, h])
    simp [ApiError.ofSqlxError, ApiError.ofDatabaseError, hc, hne]

/-- Witness for the amended C5 at concrete error values. -/
theorem other_store_errors_translation_witness :
    ApiError.ofSqlxError (.other "pool timed out") =
      ({ code := 500, error := "Fail to insert into database" },
        some ("Fail to insert into database " ++ "pool timed out")) ∧
    ApiError.ofSqlxError
        (.database { code := some "57014", constraint := none, debugRepr := "query canceled" }) =
      ({ code := 500, error := "query canceled" }, none) :=
  other_store_errors_translation "pool timed out"
    { code := some "57014", constraint := none, debugRepr := "query canceled" }
    (by decide)

/-- C6 counterexample: a unique violation of the todo primary key (the
duplicated field is the `id` column, constraint `todo_pkey`) is translated
to the fixed message "Duplicate entity", which names neither the duplicated
column nor the violated constraint, so the message does not identify the
duplicated field. -/
theorem unique_violation_message_names_no_field :
    ApiError.ofDatabaseError
        { code := some "23505", constraint := some "todo_pkey",
          debugRepr := "duplicate key value violates unique constraint todo_pkey" } =
      { code := 409, error := "Duplicate entity" } ∧
    strContains "Duplicate entity" "id" = false ∧
    strContains "Duplicate entity" "todo_pkey" = false := by
  refine ⟨rfl, ?_, ?_⟩ <;> decide

/-- C6 amended: every unique-constraint violation (SQLSTATE 23505) is
translated to status 409 Conflict with the fixed message
"Duplicate entity"; the message does not name the duplicated field. -/
theorem unique_violation_conflict (e : DatabaseError)
    (h : e.code = some "23505") :
    ApiError.ofDatabaseError e = { code := 409, error := "Duplicate entity" } := by
  simp [ApiError.ofDatabaseError, h]

/-- Witness for the amended C6 at a concrete error value. -/
theorem unique_violation_conflict_witness :
    ApiError.ofDatabaseError
        { code := some "23505", constraint := some "todo_pkey", debugRepr := "dup" } =
      { code := 409, error := "Duplicate entity" } :=
  unique_violation_conflict
    { code := some "23505", constraint := some "todo_pkey", debugRepr := "dup" } rfl

/-- C7 counterexample: a real error response of the service (GET of an
absent todo on the empty store) has a plain-text body, not a JSON object of
the shape with a single `error` string field. -/
theorem error_response_not_json :
    bodyIsJsonErrorObject (get_todo [] 0).body = false ∧
    (get_todo [] 0).body = .text "Not found" := by
  exact ⟨rfl, rfl⟩

/-- C7 amended: every error response carries its HTTP status code and the
message as a plain-text body, which is never a JSON object of the shape
with a single `error` string field. -/
theorem error_responses_are_text (err : SqlxError) :
    ((ApiError.ofSqlxError err).1.intoResponse).status = (ApiError.ofSqlxError err).1.code ∧
    ((ApiError.ofSqlxError err).1.intoResponse).body = .text ((ApiError.ofSqlxError err).1.error) ∧
    bodyIsJsonErrorObject ((ApiError.ofSqlxError err).1.intoResponse).body = false :=
  ⟨rfl, rfl, rfl⟩

/-- C8 counterexample: no binding of the fixed route table has path "/" or
"/users", so the table binds neither the static greeting nor the user
endpoints. -/
theorem no_root_or_users_routes :
    appRoutes.all (fun r => !(r.path == "/") && !(r.path == "/users")) = true := by
  decide

/-- C8 amended: the fixed route table binds exactly four routes, namely
GET /todos to get_todos, POST /todos to create_todo, GET /todos/:id to
get_todo and PUT /todos/:id to put_todo_done; it has no greeting route at
"/" and no "/users" routes. -/
theorem route_table_only_todos :
    Route.mk .get "/todos" "get_todos" ∈ appRoutes ∧
    Route.mk .post "/todos" "create_todo" ∈ appRoutes ∧
    Route.mk .get "/todos/:id" "get_todo" ∈ appRoutes ∧
    Route.mk .put "/todos/:id" "put_todo_done" ∈ appRoutes ∧
    appRoutes.length = 4 ∧
    appRoutes.all (fun r => !(r.path == "/") && !(r.path == "/users")) = true := by
  refine ⟨?_, ?_, ?_, ?_, rfl, by decide⟩ <;> simp [appRoutes]

/-- C1: creating a todo with text T (at a fresh server-generated id)
responds 201 with the view carrying that text and a false done flag, and a
subsequent GET at the returned identifier responds 200 with the same
view. -/
theorem create_then_get (s : Store) (freshId : Nat) (T : String)
    (h : ∀ t ∈ s, t.id ≠ freshId) :
    (create_todo s freshId { text := T }).2 =
      { status := 201, body := .json (ToDoView.mk freshId T false).toJson } ∧
    get_todo (create_todo s freshId { text := T }).1 freshId =
      { status := 200, body := .json (ToDoView.mk freshId T false).toJson } := by
  have hany : s.any (fun t => t.id == freshId) = false := by
    simp only [List.any_eq_false]
    intro t ht
    simp [h t ht]
  have hins : insertTodo s freshId T =
      (s ++ [{ id := freshId, todo_text := T, is_done := false }],
        .ok { id := freshId, todo_text := T, is_done := false }) := by
    simp [insertTodo, hany]
  have hfind : selectTodoById
      (s ++ [{ id := freshId, todo_text := T, is_done := false }]) freshId =
      some { id := freshId, todo_text := T, is_done := false } := by
    rw [selectTodoById, List.find?_append, find_of_not_mem s freshId h]
    simp
  constructor
  · simp [create_todo, hins, ToDoView.ofTodo]
  · simp [create_todo, hins, get_todo, hfind, fetchOne, ToDoView.ofTodo]

/-- Witness for C1 at the empty store with a concrete text. -/
theorem create_then_get_witness :
    (create_todo [] 7 { text := "buy milk" }).2 =
      { status := 201, body := .json (ToDoView.mk 7 "buy milk" false).toJson } ∧
    get_todo (create_todo [] 7 { text := "buy milk" }).1 7 =
      { status := 200, body := .json (ToDoView.mk 7 "buy milk" false).toJson } :=
  create_then_get [] 7 "buy milk" (by intro t ht; cases ht)

/-- C2: marking an existing todo done via PUT responds 200 with the updated
record (done flag true) and a subsequent GET at that identifier responds
200 with the same updated record; a PUT at an identifier matching no stored
todo responds 404 with the fixed message. -/
theorem put_then_get_done (s : Store) (id : Nat) :
    ((∃ t ∈ s, t.id = id) →
      ∃ u : Todo, u.id = id ∧ u.is_done = true ∧
        (put_todo_done s id { is_done := true }).2 =
          { status := 200, body := .json (ToDoView.ofTodo u).toJson } ∧
        get_todo (put_todo_done s id { is_done := true }).1 id =
          { status := 200, body := .json (ToDoView.ofTodo u).toJson }) ∧
    ((∀ t ∈ s, t.id ≠ id) →
      (put_todo_done s id { is_done := true }).2 =
        { status := 404, body := .text "Not found" }) := by
  constructor
  · intro h
    obtain ⟨u, hu, hid, hdone⟩ := find_setDone_of_mem s id true h
    refine ⟨u, hid, hdone, ?_, ?_⟩
    · simp [put_todo_done, updateTodoDone, hu, fetchOne]
    · simp [put_todo_done, updateTodoDone, get_todo, selectTodoById, hu, fetchOne]
  · intro h
    have hfind : (s.map (setDone id true)).find? (fun t => t.id == id) = none := by
      rw [map_setDone_of_not_mem s id true h]
      exact find_of_not_mem s id h
    simp [put_todo_done, updateTodoDone, hfind, fetchOne, ApiError.ofSqlxError,
      ApiError.intoResponse]

/-- Witness for C2: both the existing-id and the absent-id halves at a
concrete one-row store. -/
theorem put_then_get_done_witness :
    (∃ u : Todo, u.id = 1 ∧ u.is_done = true ∧
      (put_todo_done [{ id := 1, todo_text := "a", is_done := false }] 1
          { is_done := true }).2 =
        { status := 200, body := .json (ToDoView.ofTodo u).toJson } ∧
      get_todo (put_todo_done [{ id := 1, todo_text := "a", is_done := false }] 1
          { is_done := true }).1 1 =
        { status := 200, body := .json (ToDoView.ofTodo u).toJson }) ∧
    (put_todo_done [{ id := 1, todo_text := "a", is_done := false }] 2
        { is_done := true }).2 =
      { status := 404, body := .text "Not found" } :=
  ⟨(put_then_get_done [{ id := 1, todo_text := "a", is_done := false }] 1).1
      ⟨{ id := 1, todo_text := "a", is_done := false }, by simp, rfl⟩,
    (put_then_get_done [{ id := 1, todo_text := "a", is_done := false }] 2).2
      (by intro t ht; simp at ht; subst ht; decide)⟩

/-- C9: the update statement behind PUT /todos/:id preserves the length of
the table, preserves the identifier and text of every row positionally, and
leaves every row whose identifier differs from the target entirely
unchanged. -/
theorem put_frame (s : Store) (id : Nat) (b : PutTodo) :
    ((put_todo_done s id b).1).length = s.length ∧
    (∀ i : Nat, (((put_todo_done s id b).1)[i]?).map (fun t => (t.id, t.todo_text)) =
      (s[i]?).map (fun t => (t.id, t.todo_text))) ∧
    (∀ i : Nat, ∀ t : Todo, s[i]? = some t → t.id ≠ id →
      ((put_todo_done s id b).1)[i]? = some t) := by
  have h1 : (put_todo_done s id b).1 = s.map (setDone id b.is_done) := rfl
  refine ⟨by rw [h1]; simp, ?_, ?_⟩
  · intro i
    rw [h1, List.getElem?_map]
    cases hi : s[i]? with
    | none => rfl
    | some t => simp [setDone_id, setDone_text]
  · intro i t hi hne
    rw [h1, List.getElem?_map, hi]
    simp [setDone_of_ne id b.is_done t hne]

/-- Witness for C9: updating todo 1 leaves the row of todo 2 unchanged. -/
theorem put_frame_witness :
    ((put_todo_done [{ id := 1, todo_text := "a", is_done := false },
        { id := 2, todo_text := "b", is_done := false }] 1 { is_done := true }).1)[1]? =
      some { id := 2, todo_text := "b", is_done := false } :=
  (put_frame [{ id := 1, todo_text := "a", is_done := false },
      { id := 2, todo_text := "b", is_done := false }] 1 { is_done := true }).2.2 1
    { id := 2, todo_text := "b", is_done := false } rfl (by decide)

end HelloWorldApi
